import Mathlib

/-!
Verification development for the auditai-pdf-processor repository.

The definitions below are a shallow embedding of `src/index.py`.  Machine
floats are modelled as rationals (`ℚ`); Python dictionaries coming from the
PyMuPDF page source (word tuples, drawing dictionaries, pymupdf4llm page
chunks) are modelled as explicit structures carried by a `Page`.  Fallible
steps (S3 fetch plus `fitz.open`) are modelled as an `Except`-valued
capability passed to the orchestrator.
-/

namespace PdfProc

/-- A 2-D point of a vector drawing (`fitz.Point`, fields `x`/`y`). -/
structure Pt where
  x : ℚ
  y : ℚ
  deriving DecidableEq

/-- An absolute rectangle (`fitz.Rect`, fields `x0 y0 x1 y1`). -/
structure RectAbs where
  x0 : ℚ
  y0 : ℚ
  x1 : ℚ
  y1 : ℚ
  deriving DecidableEq

/-- A quadrilateral (`fitz.Quad`, corners `ul ur ll lr`). -/
structure QuadAbs where
  ul : Pt
  ur : Pt
  ll : Pt
  lr : Pt
  deriving DecidableEq

/-- One entry of a drawing's `items` list, dispatched on the operator tag
`item[0]`.  `other` stands for any item whose operator tag is none of
`"l"`, `"c"`, `"re"`, `"qu"`; `extract_all_graphics` ignores such items. -/
inductive DrawItem where
  | line (p1 p2 : Pt)
  | curve (p1 p2 p3 p4 : Pt)
  | re (rect : RectAbs)
  | qu (quad : QuadAbs)
  | other
  deriving DecidableEq

/-- One dictionary of `page.get_drawings()`: optional stroke width
(`d.get("width", 0.0) or 0.0`), optional stroke color, optional fill
color, and the `items` list. -/
structure Drawing where
  width : Option ℚ
  color : Option (List ℚ)
  fill : Option (List ℚ)
  items : List DrawItem
  deriving DecidableEq

/-- One tuple of `page.get_text("words")`:
`(x0, y0, x1, y1, word_text, block_no, line_no, word_no)`. -/
structure WordInfo where
  x0 : ℚ
  y0 : ℚ
  x1 : ℚ
  y1 : ℚ
  text : String
  block_no : Int
  line_no : Int
  word_no : Int
  deriving DecidableEq

/-- A source page: its `page.rect` dimensions, the tuples returned by
`page.get_text("words")`, the dictionaries returned by
`page.get_drawings()`, and the fields of the pymupdf4llm page chunk
produced for it by `to_markdown(..., page_chunks=True)`. -/
structure Page where
  width : ℚ
  height : ℚ
  words : List WordInfo
  drawings : List Drawing
  chunk_text : String
  chunk_metadata : List (String × String)
  chunk_tables : List String
  deriving DecidableEq

/-- A parsed document (`fitz.Document`): its pages and the metadata fields
read by `process_pdf_from_s3` (absent keys are `none`). -/
structure PDFDocument where
  pages : List Page
  title : Option String
  author : Option String
  subject : Option String
  creator : Option String
  deriving DecidableEq

/-- Python `str.strip()` on the model of strings as character lists. -/
def pyStrip (s : String) : String :=
  String.mk (((s.data.dropWhile Char.isWhitespace).reverse.dropWhile
    Char.isWhitespace).reverse)

/-- A point of an emitted graphics primitive, with absolute (`x`, `y`) and
normalized (`x_norm`, `y_norm`) coordinates. -/
structure GPoint where
  x : ℚ
  y : ℚ
  x_norm : ℚ
  y_norm : ℚ
  deriving DecidableEq

/-- The `bbox` dictionary of an emitted `rect` primitive. -/
structure GRectCoords where
  x0 : ℚ
  y0 : ℚ
  x1 : ℚ
  y1 : ℚ
  x0_norm : ℚ
  y0_norm : ℚ
  x1_norm : ℚ
  y1_norm : ℚ
  deriving DecidableEq

/-- A normalized graphics primitive appended by `extract_all_graphics`:
`type` is "line", "curve", "rect" or "quad". -/
inductive GraphicsPrimitive where
  | line (p1 p2 : GPoint) (stroke_width : ℚ)
      (stroke_color fill_color : Option (List ℚ))
  | curve (p1 p2 p3 p4 : GPoint) (stroke_width : ℚ)
      (stroke_color fill_color : Option (List ℚ))
  | rect (bbox : GRectCoords) (stroke_width : ℚ)
      (stroke_color fill_color : Option (List ℚ))
  | quad (points : List GPoint) (stroke_width : ℚ)
      (stroke_color fill_color : Option (List ℚ))
  deriving DecidableEq

/-- `float(p.x)`, `float(p.y)` paired with `float(p.x) / page_width`,
`float(p.y) / page_height` as built inline in `extract_all_graphics`. -/
def normPoint (page_width page_height : ℚ) (p : Pt) : GPoint :=
  { x := p.x, y := p.y, x_norm := p.x / page_width, y_norm := p.y / page_height }

/-- The body of the inner `for item in items` loop of
`extract_all_graphics` (src/index.py lines 191-304): dispatch on the
operator tag and build the primitive, or skip the item. -/
def classifyDrawItem (stroke_width : ℚ) (color fill : Option (List ℚ))
    (page_width page_height : ℚ) : DrawItem → Option GraphicsPrimitive
  | .line p1 p2 =>
      some (.line (normPoint page_width page_height p1)
        (normPoint page_width page_height p2) stroke_width color fill)
  | .curve p1 p2 p3 p4 =>
      some (.curve (normPoint page_width page_height p1)
        (normPoint page_width page_height p2)
        (normPoint page_width page_height p3)
        (normPoint page_width page_height p4) stroke_width color fill)
  | .re rect =>
      some (.rect
        { x0 := rect.x0, y0 := rect.y0, x1 := rect.x1, y1 := rect.y1,
          x0_norm := rect.x0 / page_width, y0_norm := rect.y0 / page_height,
          x1_norm := rect.x1 / page_width, y1_norm := rect.y1 / page_height }
        stroke_width color fill)
  | .qu quad =>
      some (.quad
        [normPoint page_width page_height quad.ul,
         normPoint page_width page_height quad.ur,
         normPoint page_width page_height quad.ll,
         normPoint page_width page_height quad.lr] stroke_width color fill)
  | .other => none

/-- `extract_all_graphics` (src/index.py lines 165-306): walk every
drawing, then every item of the drawing, appending one primitive per
recognized item. -/
def extract_all_graphics (page : Page) (page_width page_height : ℚ) :
    List GraphicsPrimitive :=
  page.drawings.flatMap (fun d =>
    d.items.filterMap
      (classifyDrawItem (d.width.getD 0) d.color d.fill page_width page_height))

/-- The four-coordinate bounding-box dictionary of a `WordBoundingBox`. -/
structure BBox where
  x0 : ℚ
  y0 : ℚ
  x1 : ℚ
  y1 : ℚ
  deriving DecidableEq

/-- The `page_dimensions` snapshot stored in a `WordBoundingBox`. -/
structure PageDims where
  width : ℚ
  height : ℚ
  deriving DecidableEq

/-- The `WordBoundingBox` response record (src/index.py lines 34-57). -/
structure WordBoundingBox where
  page : Nat
  text : String
  bbox : BBox
  absolute_bbox : BBox
  page_dimensions : PageDims
  block_no : Int
  line_no : Int
  word_no : Int
  deriving DecidableEq

/-- The `PageData` response record (src/index.py lines 110-131).
`metadata`, `toc_items`, `tables` and `images` carry opaque payloads. -/
structure PageData where
  metadata : List (String × String)
  toc_items : List String
  tables : List String
  images : List String
  graphics : List GraphicsPrimitive
  text : String
  words : List WordBoundingBox
  deriving DecidableEq

/-- The page record built in the `page_chunks` loop of
`extract_text_with_bounding_boxes` (src/index.py lines 341-350). -/
def pageChunkData (p : Page) : PageData :=
  { metadata := p.chunk_metadata, toc_items := [], tables := p.chunk_tables,
    images := [], graphics := [], text := pyStrip p.chunk_text, words := [] }

/-- The minimal page record built in graphics_only mode
(src/index.py lines 419-427). -/
def graphicsOnlyPageData (p : Page) : PageData :=
  { metadata := [], toc_items := [], tables := [], images := [],
    graphics := extract_all_graphics p p.width p.height, text := "", words := [] }

/-- The `WordBoundingBox` built for one word tuple in the word loop of
`extract_text_with_bounding_boxes` (src/index.py lines 367-400).
`page_num` is the 0-based loop index; the stored page index is 1-based. -/
def mkWordBox (page_num : Nat) (page_width page_height : ℚ)
    (w : WordInfo) : WordBoundingBox :=
  { page := page_num + 1,
    text := w.text,
    bbox := { x0 := w.x0 / page_width, y0 := w.y0 / page_height,
              x1 := w.x1 / page_width, y1 := w.y1 / page_height },
    absolute_bbox := { x0 := w.x0, y0 := w.y0, x1 := w.x1, y1 := w.y1 },
    page_dimensions := { width := page_width, height := page_height },
    block_no := w.block_no, line_no := w.line_no, word_no := w.word_no }

/-- The outer word loop `for page_num in range(len(pdf_document))`
(src/index.py lines 357-400): every word tuple of every page yields one
`WordBoundingBox`, in page order. -/
def wordBoxesFrom : Nat → List Page → List WordBoundingBox
  | _, [] => []
  | i, p :: ps =>
      p.words.map (mkWordBox i p.width p.height) ++ wordBoxesFrom (i + 1) ps

/-- `structured_page_data[page_num].graphics = graphics_primitives`,
guarded by `page_num < len(structured_page_data)`
(src/index.py lines 431-432). -/
def setGraphicsAt (sd : List PageData) (i : Nat)
    (g : List GraphicsPrimitive) : List PageData :=
  if h : i < sd.length then sd.set i { sd.get ⟨i, h⟩ with graphics := g }
  else sd

/-- The graphics loop of `extract_text_with_bounding_boxes` in full mode
(src/index.py lines 404-432, else-branch): per page, compute the
primitives and attach them to the existing page record. -/
def attachGraphicsAux : Nat → List Page → List PageData → List PageData
  | _, [], sd => sd
  | i, p :: ps, sd =>
      attachGraphicsAux (i + 1) ps
        (setGraphicsAt sd i (extract_all_graphics p p.width p.height))

/-- `extract_text_with_bounding_boxes` (src/index.py lines 309-434).
Returns `(word_bounding_boxes, structured_page_data)`.  The text branch
runs unless the mode is graphics_only; the graphics branch runs for the
full and graphics_only modes. -/
def extract_text_with_bounding_boxes (doc : PDFDocument)
    (graphics_mode : String) : List WordBoundingBox × List PageData :=
  let wbbs :=
    if graphics_mode ≠ "graphics_only" then wordBoxesFrom 0 doc.pages else []
  let structured :=
    if graphics_mode ≠ "graphics_only" then doc.pages.map pageChunkData else []
  if graphics_mode = "full" ∨ graphics_mode = "graphics_only" then
    if graphics_mode = "graphics_only" then
      (wbbs, doc.pages.map graphicsOnlyPageData)
    else
      (wbbs, attachGraphicsAux 0 doc.pages structured)
  else
    (wbbs, structured)

/-- The `DocumentInfo` response record (src/index.py lines 90-108). -/
structure DocumentInfo where
  page_count : Nat
  file_size : Nat
  title : String
  author : String
  subject : String
  creator : String
  deriving DecidableEq

/-- The `PDFProcessingResponse` record for the success path
(src/index.py lines 133-160, 478-484). -/
structure PDFProcessingResponse where
  success : Bool
  document_info : DocumentInfo
  word_bounding_boxes : List WordBoundingBox
  word_count : Nat
  structured_data : List PageData
  deriving DecidableEq

/-- The dictionary returned by `process_pdf_from_s3`: the structured
success response, or the `{success: False, error, error_type}` failure
dictionary from the catch-all handler. -/
inductive ProcessOutcome where
  | ok (r : PDFProcessingResponse)
  | failed (error : String) (error_type : String)
  deriving DecidableEq

/-- The S3-download-plus-`fitz.open` step, abstracted as a capability:
on success it yields the byte size of the fetched object and the parsed
document; any exception is an error message. -/
abbrev Fetch := String → String → Except String (Nat × PDFDocument)

/-- The success response assembled by `process_pdf_from_s3`
(src/index.py lines 460-484): extraction output, document metadata with
missing fields defaulted to the empty string, and
`word_count = len(word_bounding_boxes)`. -/
def mkSuccessResponse (file_size : Nat) (doc : PDFDocument)
    (graphics_mode : String) : PDFProcessingResponse :=
  let extracted := extract_text_with_bounding_boxes doc graphics_mode
  { success := true,
    document_info :=
      { page_count := doc.pages.length, file_size := file_size,
        title := doc.title.getD (""), author := doc.author.getD (""),
        subject := doc.subject.getD (""), creator := doc.creator.getD ("") },
    word_bounding_boxes := extracted.1,
    word_count := extracted.1.length,
    structured_data := extracted.2 }

/-- `process_pdf_from_s3` (src/index.py lines 436-497): fetch and parse
the object, then build the success response; any exception becomes the
failure dictionary. -/
def process_pdf_from_s3 (fetch : Fetch) (bucket key : String)
    (graphics_mode : String) : ProcessOutcome :=
  match fetch bucket key with
  | .error e => .failed e ("Exception")
  | .ok (file_size, doc) => .ok (mkSuccessResponse file_size doc graphics_mode)

/-- The request parameters the handler reads from a parsed body
dictionary: `s3_path` and `graphics_mode` (absent keys are `none`). -/
structure ReqBody where
  s3_path : Option String
  graphics_mode : Option String
  deriving DecidableEq

/-- An inbound Lambda event as the handler sees it.
`body`: `none` when the event has no `body` key; `some none` when the
`body` value is a string `json.loads` rejects; `some (some b)` when it
parses to the dictionary `b`.  `headers` records whether a `headers` key
is present, `hasRecords` whether a multi-record `Records` envelope is
present, and `queueMarker` whether those records carry the queue
(`aws:sqs`) event-source marker.  `topLevel` holds the parameters read
from the event dictionary itself when it is treated as a direct
invocation. -/
structure HandlerEvent where
  body : Option (Option ReqBody)
  headers : Bool
  hasRecords : Bool
  queueMarker : Bool
  topLevel : ReqBody
  deriving DecidableEq

/-- The handler's HTTP-style response: status code, the optional error
fields of the JSON body, and the processing result when extraction ran. -/
structure LambdaResponse where
  statusCode : Nat
  error : Option String
  error_type : Option String
  expected_format : Option String
  valid_values : Option (List String)
  result : Option ProcessOutcome
  deriving DecidableEq

/-- The 400 response for a missing `s3_path` (src/index.py lines 527-534). -/
def missingS3PathResponse : LambdaResponse :=
  { statusCode := 400, error := some ("Missing s3_path parameter"),
    error_type := none,
    expected_format := some ("s3://bucket-name/path/to/file.pdf"),
    valid_values := none, result := none }

/-- The 400 response for an invalid `graphics_mode`
(src/index.py lines 537-544). -/
def invalidModeResponse : LambdaResponse :=
  { statusCode := 400, error := some ("Invalid graphics_mode parameter"),
    error_type := none, expected_format := none,
    valid_values := some [("none"), ("full"), ("graphics_only")],
    result := none }

/-- The 400 response for a malformed S3 path
(src/index.py lines 547-554 and 558-565). -/
def invalidS3FormatResponse : LambdaResponse :=
  { statusCode := 400, error := some ("Invalid S3 path format"),
    error_type := none,
    expected_format := some ("s3://bucket-name/path/to/file.pdf"),
    valid_values := none, result := none }

/-- The 500 response of the handler's catch-all `except` block
(src/index.py lines 583-591). -/
def handlerErrorResponse (e et : String) : LambdaResponse :=
  { statusCode := 500, error := some e, error_type := some et,
    expected_format := none, valid_values := none, result := none }

/-- Split a character list at the first occurrence of `c`
(Python `s.split(c, 1)` yields two parts exactly when this is `some`). -/
def splitFirstOn (c : Char) : List Char → Option (List Char × List Char)
  | [] => none
  | a :: as =>
      if a = c then some ([], as)
      else
        match splitFirstOn c as with
        | none => none
        | some (l, r) => some (a :: l, r)

/-- `s.startswith('s3://')` on the character-list model of strings. -/
def hasS3Scheme (s : String) : Bool :=
  s.data.take 5 = ("s3://").data

/-- The handler body acting on parsed parameters
(src/index.py lines 523-581): falsy `s3_path` check, `graphics_mode`
validation against the closed set, S3 path shape checks, then
`process_pdf_from_s3` with a 200/500 status from the success flag. -/
def handleBody (fetch : Fetch) (b : ReqBody) : LambdaResponse :=
  let s3_path := b.s3_path.getD ("")
  let graphics_mode := b.graphics_mode.getD ("full")
  if s3_path = "" then missingS3PathResponse
  else if graphics_mode ∈ [("none"), ("full"), ("graphics_only")] then
    if hasS3Scheme s3_path then
      match splitFirstOn (Char.ofNat 47) (s3_path.data.drop 5) with
      | some (bucketChars, keyChars) =>
          let result := process_pdf_from_s3 fetch (String.mk bucketChars)
            (String.mk keyChars) graphics_mode
          { statusCode := match result with | .ok _ => 200 | .failed _ _ => 500,
            error := none, error_type := none, expected_format := none,
            valid_values := none, result := some result }
      | none => invalidS3FormatResponse
    else invalidS3FormatResponse
  else invalidModeResponse

/-- `lambda_handler` (src/index.py lines 499-591): if the event has a
`body` key it is the gateway shape and the JSON body is parsed (a parse
failure propagates to the catch-all 500); otherwise the event dictionary
itself supplies the parameters.  No other key takes part in dispatch. -/
def lambda_handler (fetch : Fetch) (event : HandlerEvent) : LambdaResponse :=
  match event.body with
  | some none => handlerErrorResponse ("Expecting value") ("JSONDecodeError")
  | some (some b) => handleBody fetch b
  | none => handleBody fetch event.topLevel

/-- The parameter dictionary the handler ends up reading, when parsing
does not raise: the parsed body for gateway-shaped events, the event
itself otherwise. -/
def paramsOf (event : HandlerEvent) : Option ReqBody :=
  match event.body with
  | some none => none
  | some (some b) => some b
  | none => some event.topLevel

/-- Event shapes named by the spec's dispatch description (§4.7). -/
inductive EventShape where
  | queueBatch
  | gateway
  | direct
  deriving DecidableEq

/-- Modelled from the spec (§4.7), for comparison with the code's
dispatch: queue-batch first (multi-record envelope with the queue
event-source marker), then gateway (both a body and a headers field),
else direct. -/
def specClassifyEvent (e : HandlerEvent) : EventShape :=
  if e.hasRecords ∧ e.queueMarker then .queueBatch
  else if e.body.isSome ∧ e.headers then .gateway
  else .direct

/-- The dispatch the code performs (src/index.py lines 516-521): a
`body` key alone selects the gateway path; every other event is treated
as a direct invocation; no queue-batch branch exists. -/
def codeClassifyEvent (e : HandlerEvent) : EventShape :=
  if e.body.isSome then .gateway else .direct

/-- Modelled from the spec: the Notification Dispatcher's retrying
webhook delivery (spec §4.8, §5, §8) is absent from src/.  Delivery is
attempted up to 3 times, stopping at the first success; `succeeds n`
says whether the n-th attempt (1-based) would succeed.  Returns the
number of attempts made and whether delivery succeeded. -/
def webhookDeliverAux (succeeds : Nat → Bool) :
    Nat → Nat → Nat × Bool
  | 0, made => (made, false)
  | remaining + 1, made =>
      if succeeds (made + 1) then (made + 1, true)
      else webhookDeliverAux succeeds remaining (made + 1)

/-- Modelled from the spec: webhook delivery with the retry bound of 3
attempts (spec §5: "webhook delivery retries up to 3 attempts"). -/
def deliver_webhook (succeeds : Nat → Bool) : Nat × Bool :=
  webhookDeliverAux succeeds 3 0

/-- Items the graphics classifier recognizes (operator tag one of
`l`, `c`, `re`, `qu`). -/
def recognizedItem : DrawItem → Bool
  | .other => false
  | _ => true

/-! ### Characterization lemmas for the extraction pipeline -/

theorem extract_none_eq (doc : PDFDocument) :
    extract_text_with_bounding_boxes doc ("none") =
      (wordBoxesFrom 0 doc.pages, doc.pages.map pageChunkData) := rfl

theorem extract_full_eq (doc : PDFDocument) :
    extract_text_with_bounding_boxes doc ("full") =
      (wordBoxesFrom 0 doc.pages,
        attachGraphicsAux 0 doc.pages (doc.pages.map pageChunkData)) := rfl

theorem extract_graphics_only_eq (doc : PDFDocument) :
    extract_text_with_bounding_boxes doc ("graphics_only") =
      ([], doc.pages.map graphicsOnlyPageData) := rfl

theorem extract_fst_of_not_graphics_only (doc : PDFDocument) (mode : String)
    (h : mode ≠ "graphics_only") :
    (extract_text_with_bounding_boxes doc mode).1 = wordBoxesFrom 0 doc.pages := by
  unfold extract_text_with_bounding_boxes
  simp only [if_pos h]
  split
  · rfl
  · rfl

theorem length_setGraphicsAt (sd : List PageData) (i : Nat)
    (g : List GraphicsPrimitive) : (setGraphicsAt sd i g).length = sd.length := by
  unfold setGraphicsAt
  split
  · exact List.length_set sd i _
  · rfl

theorem length_attachGraphicsAux :
    ∀ (i : Nat) (ps : List Page) (sd : List PageData),
      (attachGraphicsAux i ps sd).length = sd.length
  | _, [], _ => rfl
  | i, p :: ps, sd => by
      rw [attachGraphicsAux, length_attachGraphicsAux, length_setGraphicsAt]

theorem length_wordBoxesFrom :
    ∀ (i : Nat) (ps : List Page),
      (wordBoxesFrom i ps).length = (ps.map (fun p => p.words.length)).sum
  | _, [] => rfl
  | i, p :: ps => by
      rw [wordBoxesFrom, List.length_append, List.length_map,
        length_wordBoxesFrom, List.map_cons, List.sum_cons]

/-- Every emitted word box is `mkWordBox` of some word tuple of some page,
at that page's dimensions. -/
theorem mem_wordBoxesFrom {wb : WordBoundingBox} :
    ∀ {i : Nat} {ps : List Page}, wb ∈ wordBoxesFrom i ps →
      ∃ j p w, p ∈ ps ∧ w ∈ p.words ∧ wb = mkWordBox j p.width p.height w := by
  intro i ps
  induction ps generalizing i with
  | nil => intro h; exact absurd h (List.not_mem_nil wb)
  | cons p ps ih =>
      intro h
      rcases List.mem_append.mp h with h | h
      · obtain ⟨w, hw, rfl⟩ := List.mem_map.mp h
        exact ⟨i, p, w, List.mem_cons_self p ps, hw, rfl⟩
      · obtain ⟨j, q, w, hq, hw, rfl⟩ := ih h
        exact ⟨j, q, w, List.mem_cons_of_mem p hq, hw, rfl⟩

/-! ### Sample inputs used to instantiate the theorems -/

/-- A word tuple whose rectangle lies inside the page bounds. -/
def wInside : WordInfo :=
  { x0 := 1, y0 := 2, x1 := 4, y1 := 5, text := "hello",
    block_no := 0, line_no := 0, word_no := 0 }

/-- A page of dimensions 10 × 20 with one in-bounds word and one line
drawing. -/
def pageA : Page :=
  { width := 10, height := 20, words := [wInside],
    drawings := [{ width := some 1, color := some [1, 0, 0], fill := none,
                   items := [DrawItem.line { x := 1, y := 2 } { x := 3, y := 4 }] }],
    chunk_text := " hello ", chunk_metadata := [], chunk_tables := [] }

/-- A one-page document built from `pageA`. -/
def docA : PDFDocument :=
  { pages := [pageA], title := some ("t"), author := none,
    subject := none, creator := none }

/-! ### C4 -/

/-- A page with negative width holding one word. -/
def pageNegWidth : Page :=
  { width := -5, height := 10,
    words := [{ x0 := 1, y0 := 1, x1 := 2, y1 := 2, text := "w",
                block_no := 0, line_no := 0, word_no := 0 }],
    drawings := [], chunk_text := "t", chunk_metadata := [], chunk_tables := [] }

/-- A one-page document whose only page has non-positive width. -/
def docNegWidth : PDFDocument :=
  { pages := [pageNegWidth], title := none, author := none,
    subject := none, creator := none }

/-- C4 counterexample: a page with non-positive width is not skipped:
extraction in full mode still emits its word box and its page record,
so the page is not excluded from the outputs. -/
theorem nonpositive_page_not_skipped :
    pageNegWidth.width ≤ 0 ∧
    (extract_text_with_bounding_boxes docNegWidth ("full")).1.length = 1 ∧
    (extract_text_with_bounding_boxes docNegWidth ("full")).2.length = 1 :=
  ⟨by norm_num [pageNegWidth], rfl, rfl⟩

/-- C4 amended: `extract_text_with_bounding_boxes` never skips a page:
in full mode every page contributes exactly one page record and one word
box per word tuple, whatever its dimensions; normalization divides by
the page dimension unconditionally (in the Python source a zero
dimension with a word present raises ZeroDivisionError instead of being
skipped). -/
theorem pages_never_skipped (doc : PDFDocument) :
    (extract_text_with_bounding_boxes doc ("full")).2.length = doc.pages.length ∧
    (extract_text_with_bounding_boxes doc ("full")).1.length =
      (doc.pages.map (fun p => p.words.length)).sum := by
  rw [extract_full_eq]
  exact ⟨by rw [length_attachGraphicsAux, List.length_map],
    length_wordBoxesFrom 0 doc.pages⟩

/-! ### C5 -/

/-- C5: processing with extraction mode "none" yields page records whose
graphics list is empty, regardless of the drawings on the source pages. -/
theorem none_mode_graphics_empty (doc : PDFDocument) (pd : PageData)
    (h : pd ∈ (extract_text_with_bounding_boxes doc ("none")).2) :
    pd.graphics = [] := by
  rw [extract_none_eq] at h
  obtain ⟨p, hp, rfl⟩ := List.mem_map.mp h
  rfl

/-- C5 witness: a concrete document whose page does carry a drawing
still yields an empty graphics list in "none" mode. -/
theorem none_mode_graphics_empty_witness :
    (pageChunkData pageA).graphics = [] := by
  have h : pageChunkData pageA ∈
      (extract_text_with_bounding_boxes docA ("none")).2 := by
    rw [extract_none_eq]
    exact List.mem_map_of_mem pageChunkData (List.mem_singleton.mpr rfl)
  exact none_mode_graphics_empty docA (pageChunkData pageA) h

/-! ### C9 -/

/-- C9: webhook delivery (modelled from the spec, which is the only
source describing it) attempts a deterministically failing callback
exactly 3 times before surfacing failure, and does not attempt a third
delivery when the callback succeeds on attempt 2. -/
theorem webhook_retry_bound (succeeds : Nat → Bool) :
    ((∀ n, succeeds n = false) → deliver_webhook succeeds = (3, false)) ∧
    (succeeds 1 = false → succeeds 2 = true →
      deliver_webhook succeeds = (2, true)) := by
  constructor
  · intro h
    simp [deliver_webhook, webhookDeliverAux, h]
  · intro h1 h2
    simp [deliver_webhook, webhookDeliverAux, h1, h2]

/-- C9 witness: the always-failing callback is attempted exactly 3
times; the callback succeeding exactly on attempt 2 stops after 2. -/
theorem webhook_retry_bound_witness :
    deliver_webhook (fun _ => false) = (3, false) ∧
    deliver_webhook (fun n => n == 2) = (2, true) :=
  ⟨(webhook_retry_bound (fun _ => false)).1 (fun _ => rfl),
   (webhook_retry_bound (fun n => n == 2)).2 rfl rfl⟩

/-! ### C10 -/

/-- C10: every successful response produced by `process_pdf_from_s3` has
`word_count` equal to the length of its `word_bounding_boxes` list, for
every document and extraction mode. -/
theorem word_count_eq_boxes_length (fetch : Fetch)
    (bucket key graphics_mode : String) (r : PDFProcessingResponse)
    (h : process_pdf_from_s3 fetch bucket key graphics_mode = .ok r) :
    r.word_count = r.word_bounding_boxes.length := by
  unfold process_pdf_from_s3 at h
  cases hf : fetch bucket key with
  | error e => rw [hf] at h; exact absurd h (by simp)
  | ok v =>
      rw [hf] at h
      obtain ⟨file_size, doc⟩ := v
      simp only [ProcessOutcome.ok.injEq] at h
      subst h
      rfl

/-- A fetch capability that always succeeds with `docA` of size 5. -/
def fetchA : Fetch := fun _ _ => .ok (5, docA)

/-- C10 witness at a concrete fetch, path and mode. -/
theorem word_count_eq_boxes_length_witness :
    (mkSuccessResponse 5 docA ("full")).word_count =
      (mkSuccessResponse 5 docA ("full")).word_bounding_boxes.length :=
  word_count_eq_boxes_length fetchA ("b") ("k") ("full") _ rfl

/-! ### C1 -/

/-- A word tuple whose rectangle exceeds the page bounds on the right. -/
def wOutOfBounds : WordInfo :=
  { x0 := 0, y0 := 0, x1 := 20, y1 := 5, text := "wide",
    block_no := 0, line_no := 0, word_no := 0 }

/-- A 10 × 10 page holding the out-of-bounds word. -/
def pageOut : Page :=
  { width := 10, height := 10, words := [wOutOfBounds], drawings := [],
    chunk_text := "", chunk_metadata := [], chunk_tables := [] }

/-- A one-page document holding `pageOut`. -/
def docOut : PDFDocument :=
  { pages := [pageOut], title := none, author := none,
    subject := none, creator := none }

/-- C1 counterexample: on a page of positive dimensions 10 × 10, a word
rectangle reaching x1 = 20 is emitted with normalized x1 = 2: the
normalized coordinates are not clamped to [0,1]. -/
theorem normalized_bbox_not_clamped :
    ¬ (∀ wb ∈ (extract_text_with_bounding_boxes docOut ("full")).1,
        0 ≤ wb.bbox.x0 ∧ wb.bbox.x0 ≤ wb.bbox.x1 ∧ wb.bbox.x1 ≤ 1) := by
  intro h
  have hm : mkWordBox 0 pageOut.width pageOut.height wOutOfBounds ∈
      (extract_text_with_bounding_boxes docOut ("full")).1 := by
    rw [extract_full_eq]
    simp [docOut, pageOut, wordBoxesFrom]
  obtain ⟨-, -, hx⟩ := h _ hm
  norm_num [mkWordBox, pageOut, wOutOfBounds] at hx

/-- C1 amended: each normalized coordinate of an emitted word box is the
absolute coordinate divided by the stored page dimension, with no
clamping; hence `0 ≤ x0 ≤ x1 ≤ 1` (and likewise for y) holds whenever
the absolute rectangle lies within the page bounds, while rectangles
exceeding the bounds yield normalized values outside [0,1]. -/
theorem normalized_bbox_division (doc : PDFDocument) (mode : String)
    (wb : WordBoundingBox)
    (h : wb ∈ (extract_text_with_bounding_boxes doc mode).1) :
    (wb.bbox.x0 = wb.absolute_bbox.x0 / wb.page_dimensions.width ∧
     wb.bbox.x1 = wb.absolute_bbox.x1 / wb.page_dimensions.width ∧
     wb.bbox.y0 = wb.absolute_bbox.y0 / wb.page_dimensions.height ∧
     wb.bbox.y1 = wb.absolute_bbox.y1 / wb.page_dimensions.height) ∧
    (0 < wb.page_dimensions.width → 0 ≤ wb.absolute_bbox.x0 →
      wb.absolute_bbox.x0 ≤ wb.absolute_bbox.x1 →
      wb.absolute_bbox.x1 ≤ wb.page_dimensions.width →
      0 ≤ wb.bbox.x0 ∧ wb.bbox.x0 ≤ wb.bbox.x1 ∧ wb.bbox.x1 ≤ 1) ∧
    (0 < wb.page_dimensions.height → 0 ≤ wb.absolute_bbox.y0 →
      wb.absolute_bbox.y0 ≤ wb.absolute_bbox.y1 →
      wb.absolute_bbox.y1 ≤ wb.page_dimensions.height →
      0 ≤ wb.bbox.y0 ∧ wb.bbox.y0 ≤ wb.bbox.y1 ∧ wb.bbox.y1 ≤ 1) := by
  by_cases hm : mode = "graphics_only"
  · subst hm
    rw [extract_graphics_only_eq] at h
    exact absurd h (List.not_mem_nil wb)
  · rw [extract_fst_of_not_graphics_only doc mode hm] at h
    obtain ⟨j, p, w, hp, hw, rfl⟩ := mem_wordBoxesFrom h
    refine ⟨⟨rfl, rfl, rfl, rfl⟩, ?_, ?_⟩
    · intro hpos h0 h01 h1
      exact ⟨div_nonneg h0 (le_of_lt hpos),
        (div_le_div_iff_of_pos_right hpos).mpr h01, (div_le_one hpos).mpr h1⟩
    · intro hpos h0 h01 h1
      exact ⟨div_nonneg h0 (le_of_lt hpos),
        (div_le_div_iff_of_pos_right hpos).mpr h01, (div_le_one hpos).mpr h1⟩

/-- C1 amended witness: the in-bounds word of `docA` gets normalized x
coordinates inside [0,1]. -/
theorem normalized_bbox_division_witness :
    0 ≤ (mkWordBox 0 pageA.width pageA.height wInside).bbox.x0 ∧
    (mkWordBox 0 pageA.width pageA.height wInside).bbox.x0 ≤
      (mkWordBox 0 pageA.width pageA.height wInside).bbox.x1 ∧
    (mkWordBox 0 pageA.width pageA.height wInside).bbox.x1 ≤ 1 := by
  have hmem : mkWordBox 0 pageA.width pageA.height wInside ∈
      (extract_text_with_bounding_boxes docA ("full")).1 := by
    rw [extract_full_eq]
    simp [docA, pageA, wordBoxesFrom]
  exact (normalized_bbox_division docA ("full") _ hmem).2.1
    (by norm_num [mkWordBox, pageA]) (by norm_num [mkWordBox, wInside])
    (by norm_num [mkWordBox, wInside])
    (by norm_num [mkWordBox, wInside, pageA])

/-! ### C2 -/

/-- A word tuple with empty text and a degenerate rectangle. -/
def wDegenerate : WordInfo :=
  { x0 := 3, y0 := 4, x1 := 3, y1 := 4, text := "",
    block_no := 0, line_no := 0, word_no := 1 }

/-- A 10 × 10 page holding only the degenerate word. -/
def pageDegenerate : Page :=
  { width := 10, height := 10, words := [wDegenerate], drawings := [],
    chunk_text := "", chunk_metadata := [], chunk_tables := [] }

/-- A one-page document holding `pageDegenerate`. -/
def docDegenerate : PDFDocument :=
  { pages := [pageDegenerate], title := none, author := none,
    subject := none, creator := none }

/-- C2 counterexample: a word token with empty trimmed text and a
degenerate rectangle (x0 = x1, y0 = y1) appears in the output: no skip
happens. -/
theorem degenerate_word_not_skipped :
    ¬ (∀ wb ∈ (extract_text_with_bounding_boxes docDegenerate ("full")).1,
        pyStrip wb.text ≠ "" ∧ wb.absolute_bbox.x0 < wb.absolute_bbox.x1 ∧
        wb.absolute_bbox.y0 < wb.absolute_bbox.y1) := by
  intro h
  have hm : mkWordBox 0 pageDegenerate.width pageDegenerate.height wDegenerate ∈
      (extract_text_with_bounding_boxes docDegenerate ("full")).1 := by
    rw [extract_full_eq]
    simp [docDegenerate, pageDegenerate, wordBoxesFrom]
  obtain ⟨ht, -, -⟩ := h _ hm
  exact ht rfl

/-- C2 amended: the word loop performs no filtering at all: whenever the
text branch runs (every mode except graphics_only), every word tuple of
every page — including tuples with empty trimmed text or degenerate
rectangles — yields exactly one output word box. -/
theorem every_word_token_emitted (doc : PDFDocument) (mode : String)
    (h : mode ≠ "graphics_only") :
    (extract_text_with_bounding_boxes doc mode).1.length =
      (doc.pages.map (fun p => p.words.length)).sum := by
  rw [extract_fst_of_not_graphics_only doc mode h]
  exact length_wordBoxesFrom 0 doc.pages

/-- C2 amended witness: the degenerate word document yields exactly its
one (degenerate) token. -/
theorem every_word_token_emitted_witness :
    (extract_text_with_bounding_boxes docDegenerate ("full")).1.length =
      (docDegenerate.pages.map (fun p => p.words.length)).sum :=
  every_word_token_emitted docDegenerate ("full") (by decide)

/-! ### C3 -/

theorem classifyDrawItem_eq_none_iff (sw : ℚ) (c f : Option (List ℚ))
    (w h : ℚ) (it : DrawItem) :
    classifyDrawItem sw c f w h it = none ↔ recognizedItem it = false := by
  cases it <;> simp [classifyDrawItem, recognizedItem]

/-- The classifier emits at least one primitive exactly when some drawing
of the page contains a recognized operation. -/
theorem extract_all_graphics_ne_nil_iff (p : Page) (w h : ℚ) :
    extract_all_graphics p w h ≠ [] ↔
      p.drawings.any (fun d => d.items.any recognizedItem) = true := by
  unfold extract_all_graphics
  rw [Ne, List.flatMap_eq_nil_iff]
  simp only [List.filterMap_eq_nil_iff, classifyDrawItem_eq_none_iff,
    List.any_eq_true]
  push_neg
  simp only [Bool.not_eq_false]

/-- A page whose only drawing holds a single unrecognized operation. -/
def pageUnrecognized : Page :=
  { width := 10, height := 10, words := [],
    drawings := [{ width := none, color := none, fill := none,
                   items := [DrawItem.other] }],
    chunk_text := "", chunk_metadata := [], chunk_tables := [] }

/-- A one-page document holding `pageUnrecognized`. -/
def docUnrecognized : PDFDocument :=
  { pages := [pageUnrecognized], title := none, author := none,
    subject := none, creator := none }

/-- C3 counterexample: a source page that has a drawing (one drawing
whose single item carries an unrecognized operator tag) still yields a
graphics_only page record with an empty graphics list. -/
theorem graphics_only_can_be_empty_despite_drawings :
    docUnrecognized.pages.map (fun p => p.drawings.length) = [1] ∧
    (extract_text_with_bounding_boxes docUnrecognized ("graphics_only")).2.map
        (fun pd => pd.graphics) = [[]] :=
  ⟨rfl, rfl⟩

/-- C3 amended: graphics_only mode performs no text/table/word-box
extraction (no word boxes are emitted and every page record has empty
tables, words and text); one record is emitted per page, its graphics
being exactly the classified primitives of that page; the graphics list
is non-empty precisely when some drawing of the page contains at least
one recognized operation (line, curve, rect, quad) — a page whose
drawings hold only unrecognized operations yields an empty list. -/
theorem graphics_only_structure (doc : PDFDocument) :
    (extract_text_with_bounding_boxes doc ("graphics_only")).1 = [] ∧
    (extract_text_with_bounding_boxes doc ("graphics_only")).2.map
        (fun pd => pd.graphics) =
      doc.pages.map (fun p => extract_all_graphics p p.width p.height) ∧
    (∀ pd ∈ (extract_text_with_bounding_boxes doc ("graphics_only")).2,
      pd.metadata = [] ∧ pd.tables = [] ∧ pd.words = [] ∧ pd.text = "") ∧
    (∀ p ∈ doc.pages,
      extract_all_graphics p p.width p.height ≠ [] ↔
        p.drawings.any (fun d => d.items.any recognizedItem) = true) := by
  refine ⟨rfl, ?_, ?_, ?_⟩
  · rw [extract_graphics_only_eq, List.map_map]
    rfl
  · intro pd hpd
    rw [extract_graphics_only_eq] at hpd
    obtain ⟨p, hp, rfl⟩ := List.mem_map.mp hpd
    exact ⟨rfl, rfl, rfl, rfl⟩
  · intro p hp
    exact extract_all_graphics_ne_nil_iff p p.width p.height

/-- C3 amended witness: the graphics_only record of a concrete page has
empty metadata, tables, words and text. -/
theorem graphics_only_structure_witness :
    (graphicsOnlyPageData pageA).metadata = [] ∧
    (graphicsOnlyPageData pageA).tables = [] ∧
    (graphicsOnlyPageData pageA).words = [] ∧
    (graphicsOnlyPageData pageA).text = "" := by
  have hmem : graphicsOnlyPageData pageA ∈
      (extract_text_with_bounding_boxes docA ("graphics_only")).2 := by
    rw [extract_graphics_only_eq]
    exact List.mem_map_of_mem graphicsOnlyPageData (List.mem_singleton.mpr rfl)
  exact (graphics_only_structure docA).2.2.1 (graphicsOnlyPageData pageA) hmem

/-! ### The handler: C6, C7, C8 -/

/-- When parameter parsing does not raise, the handler acts as
`handleBody` on the parsed parameters. -/
theorem lambda_handler_eq_handleBody (fetch : Fetch) (e : HandlerEvent)
    (b : ReqBody) (h : paramsOf e = some b) :
    lambda_handler fetch e = handleBody fetch b := by
  unfold paramsOf at h
  unfold lambda_handler
  cases hb : e.body with
  | none =>
      rw [hb] at h
      simp only [Option.some.injEq] at h
      subst h
      rfl
  | some ob =>
      cases ob with
      | none =>
          rw [hb] at h
          exact absurd h (by simp)
      | some b2 =>
          rw [hb] at h
          simp only [Option.some.injEq] at h
          subst h
          rfl

/-- C7: an event whose parsed parameters lack a source locator receives
the 400 missing-s3_path validation response, and the response does not
depend on the fetch capability: no document fetch or parse occurs. -/
theorem missing_s3_path_rejected (e : HandlerEvent) (fetch fetch2 : Fetch)
    (b : ReqBody) (hb : paramsOf e = some b) (hs : b.s3_path = none) :
    lambda_handler fetch e = missingS3PathResponse ∧
    (lambda_handler fetch e).statusCode = 400 ∧
    lambda_handler fetch e = lambda_handler fetch2 e := by
  have key : ∀ f : Fetch, lambda_handler f e = missingS3PathResponse := by
    intro f
    rw [lambda_handler_eq_handleBody f e b hb]
    simp only [handleBody, hs]
    rfl
  exact ⟨key fetch, by rw [key fetch]; rfl, (key fetch).trans (key fetch2).symm⟩

/-- A direct event with no parameters at all. -/
def evMissing : HandlerEvent :=
  { body := none, headers := false, hasRecords := false, queueMarker := false,
    topLevel := { s3_path := none, graphics_mode := none } }

/-- C7 witness at a concrete direct event lacking a source locator. -/
theorem missing_s3_path_rejected_witness :
    lambda_handler fetchA evMissing = missingS3PathResponse ∧
    (lambda_handler fetchA evMissing).statusCode = 400 ∧
    lambda_handler fetchA evMissing =
      lambda_handler (fun _ _ => .error ("boom")) evMissing :=
  missing_s3_path_rejected evMissing fetchA _ _ rfl rfl

/-- A direct event with an invalid extraction mode and no locator. -/
def evBadModeNoPath : HandlerEvent :=
  { body := none, headers := false, hasRecords := false, queueMarker := false,
    topLevel := { s3_path := none, graphics_mode := some ("bogus") } }

/-- C6 counterexample: a request whose extraction mode is outside the
valid set but whose source locator is missing receives the
missing-s3_path 400 response, which does not list the valid mode
values. -/
theorem invalid_mode_not_always_listed :
    (evBadModeNoPath.topLevel.graphics_mode.getD ("full")) ∉
        [("none"), ("full"), ("graphics_only")] ∧
    lambda_handler fetchA evBadModeNoPath = missingS3PathResponse ∧
    missingS3PathResponse.valid_values = none :=
  ⟨by decide, rfl, rfl⟩

/-- C6 amended: a request whose parsed parameters carry an extraction
mode outside the closed set gets a 400 validation response, with no
extraction attempted (the response carries no result and is independent
of the fetch capability); the response is the invalid-mode response
listing the valid values whenever the source locator is present and
non-empty — otherwise the missing-locator check takes precedence. -/
theorem invalid_mode_rejected (e : HandlerEvent) (fetch fetch2 : Fetch)
    (b : ReqBody) (hb : paramsOf e = some b)
    (hm : (b.graphics_mode.getD ("full")) ∉
      [("none"), ("full"), ("graphics_only")]) :
    (lambda_handler fetch e).statusCode = 400 ∧
    (lambda_handler fetch e).result = none ∧
    lambda_handler fetch e = lambda_handler fetch2 e ∧
    (b.s3_path.getD ("") ≠ "" → lambda_handler fetch e = invalidModeResponse) := by
  have key : ∀ f : Fetch, lambda_handler f e =
      if b.s3_path.getD ("") = "" then missingS3PathResponse
      else invalidModeResponse := by
    intro f
    rw [lambda_handler_eq_handleBody f e b hb]
    simp only [handleBody, if_neg hm]
  refine ⟨?_, ?_, ?_, ?_⟩
  · rw [key fetch]
    split <;> rfl
  · rw [key fetch]
    split <;> rfl
  · rw [key fetch, key fetch2]
  · intro hns
    rw [key fetch, if_neg hns]

/-- A direct event with an invalid extraction mode and a well-formed
locator. -/
def evBadModeWithPath : HandlerEvent :=
  { body := none, headers := false, hasRecords := false, queueMarker := false,
    topLevel := { s3_path := some ("s3://b/k"), graphics_mode := some ("bogus") } }

/-- C6 amended witness at a concrete event carrying a locator and an
invalid mode. -/
theorem invalid_mode_rejected_witness :
    (lambda_handler fetchA evBadModeWithPath).statusCode = 400 ∧
    (lambda_handler fetchA evBadModeWithPath).result = none ∧
    lambda_handler fetchA evBadModeWithPath =
      lambda_handler (fun _ _ => .error ("boom")) evBadModeWithPath ∧
    (evBadModeWithPath.topLevel.s3_path.getD ("") ≠ "" →
      lambda_handler fetchA evBadModeWithPath = invalidModeResponse) :=
  invalid_mode_rejected evBadModeWithPath fetchA _ _ rfl (by decide)

/-- A gateway-shaped event (body present) without a headers field, whose
top-level fields do carry a valid locator. -/
def evBodyNoHeaders : HandlerEvent :=
  { body := some (some { s3_path := none, graphics_mode := none }),
    headers := false, hasRecords := false, queueMarker := false,
    topLevel := { s3_path := some ("s3://b/k"), graphics_mode := none } }

/-- A queue-batch-shaped event: a records envelope with the queue
event-source marker and no body field. -/
def evQueueShape : HandlerEvent :=
  { body := none, headers := false, hasRecords := true, queueMarker := true,
    topLevel := { s3_path := none, graphics_mode := none } }

/-- C8 counterexample: dispatch does not follow the claimed priority
order.  An event with a body but no headers — direct under the claimed
classification — is handled through the parsed body (gateway): the
handler answers with the missing-s3_path response although the top-level
fields carry a valid locator.  An event shaped as a queue batch — which
the claim puts first — is classified as a direct invocation because it
has no body field. -/
theorem event_dispatch_priority_refuted :
    specClassifyEvent evBodyNoHeaders = EventShape.direct ∧
    codeClassifyEvent evBodyNoHeaders = EventShape.gateway ∧
    lambda_handler fetchA evBodyNoHeaders = missingS3PathResponse ∧
    specClassifyEvent evQueueShape = EventShape.queueBatch ∧
    codeClassifyEvent evQueueShape = EventShape.direct :=
  ⟨rfl, rfl, rfl, rfl, rfl⟩

/-- C8 amended: dispatch inspects only the presence of the body field.
An event with a body — headers present or not — is handled as gateway,
its parameters read from the parsed body and the top-level fields
ignored; every event without a body, including a multi-record queue
envelope, is handled as a direct invocation; the handler's outcome never
depends on the headers or records fields. -/
theorem dispatch_only_checks_body (fetch : Fetch) (bd : Option (Option ReqBody))
    (tl : ReqBody) (h1 h2 r1 r2 m1 m2 : Bool) :
    lambda_handler fetch
        { body := bd, headers := h1, hasRecords := r1, queueMarker := m1,
          topLevel := tl } =
      lambda_handler fetch
        { body := bd, headers := h2, hasRecords := r2, queueMarker := m2,
          topLevel := tl } ∧
    (∀ pb : ReqBody, lambda_handler fetch
        { body := some (some pb), headers := h1, hasRecords := r1,
          queueMarker := m1, topLevel := tl } = handleBody fetch pb) ∧
    lambda_handler fetch
        { body := none, headers := h1, hasRecords := r1, queueMarker := m1,
          topLevel := tl } = handleBody fetch tl := by
  refine ⟨?_, fun pb => rfl, rfl⟩
  cases bd with
  | none => rfl
  | some ob =>
      cases ob with
      | none => rfl
      | some b => rfl

end PdfProc
